import Mathlib

/-!
Shallow embedding of the DynamoDB query helper from `aws/dynamodb.go`
(package `aws` of the hephaestus repository): the filter-expression
compiler (`buildSingleCondition`, `buildFilterExpression`), the key
condition builder, the input assembly and the pagination loop of `Query`.
Go `any` values are modelled by `GoValue` (with `.null` standing for a
nil interface value), Go string-typed operator constants stay strings,
pointers become `Option`, and fallible Go functions return `Except`.
The backend (`dynamodb.NewQueryPaginator` / `NextPage`) is abstracted as
a trace of page outcomes consumed in order.
-/

namespace Hephaestus

/-- A Go `any` value as it appears in query options and conditions.
`null` is the nil interface value. -/
inductive GoValue where
  | null
  | str (s : String)
  | num (n : Int)
  | boolean (b : Bool)
  deriving DecidableEq, Repr

/-- Go `fmt.Sprint` on the values we model (used by Contains/BeginsWith). -/
def goSprint : GoValue → String
  | .null => "<nil>"
  | .str s => s
  | .num n => toString n
  | .boolean b => if b then "true" else "false"

/-- Go type `LogicalOperator string`. -/
abbrev LogicalOperator := String

/-- Go type `WhereOperator string`. -/
abbrev WhereOperator := String

def AND : LogicalOperator := "AND"
def OR : LogicalOperator := "OR"

def Equal : WhereOperator := "="
def NotEqual : WhereOperator := "!="
def LessThan : WhereOperator := "<"
def LessThanEqual : WhereOperator := "<="
def GreaterThan : WhereOperator := ">"
def GreaterThanEqual : WhereOperator := ">="
def Between : WhereOperator := "BETWEEN"
def In : WhereOperator := "IN"
def Contains : WhereOperator := "CONTAINS"
def BeginsWith : WhereOperator := "BEGINS_WITH"
def AttributeExists : WhereOperator := "EXISTS"
def AttributeNotExists : WhereOperator := "NOT_EXISTS"

/-- Go struct `QueryKeyValue{Key string; Value any; Operator WhereOperator}`. -/
structure QueryKeyValue where
  key : String
  value : GoValue
  operator : WhereOperator
  deriving DecidableEq, Repr

/-- Go struct `WhereCondition`. `value`/`value2` are `any` (nil = `.null`),
`values` is the `[]any` slice for the IN operator. -/
structure WhereCondition where
  field : String
  operator : WhereOperator
  value : GoValue := .null
  value2 : GoValue := .null
  values : List GoValue := []
  deriving DecidableEq, Repr

/-- Go struct `Where{Conditions []WhereCondition; Groups []Where; Operator LogicalOperator}`,
a recursive boolean condition tree. -/
inductive Where where
  | mk (conditions : List WhereCondition) (groups : List Where) (operator : LogicalOperator)

/-- The error values of the Go code.  Sentinel errors from the `var` block of
`dynamodb.go` plus the `errors.New`/`fmt.Errorf` values created inline, and
`ctxCancelled` standing for Go's `context.Canceled`. -/
inductive GoError where
  | tableNotSet
  | indexNotSet
  | partitionNotSet
  | buildFilterExpression
  | queryFailed
  | unsupportedSortOperator (op : WhereOperator)
  | unsupportedOperator (op : WhereOperator)
  | emptyInOperands
  | noConditions
  | ctxCancelled
  | backendFailure (msg : String)
  deriving DecidableEq, Repr

/-- The predicate fragments produced by the AWS expression builder
(`expression.ConditionBuilder`), as an abstract syntax tree. -/
inductive Cond where
  | eq (f : String) (v : GoValue)
  | ne (f : String) (v : GoValue)
  | lt (f : String) (v : GoValue)
  | le (f : String) (v : GoValue)
  | gt (f : String) (v : GoValue)
  | ge (f : String) (v : GoValue)
  | between (f : String) (lo hi : GoValue)
  | inSet (f : String) (vs : List GoValue)
  | containsSub (f : String) (s : String)
  | beginsWith (f : String) (s : String)
  | attrExists (f : String)
  | attrNotExists (f : String)
  | and (a b : Cond)
  | or (a b : Cond)
  deriving DecidableEq, Repr

/-- Go `buildSingleCondition`: compiles one leaf `WhereCondition` into a
predicate fragment.  Mirrors the `switch cond.Operator` of the source:
Between performs no bound check, In requires a non-empty `Values` slice,
Contains/BeginsWith stringify `Value`, unknown operators fail. -/
def buildSingleCondition (cond : WhereCondition) : Except GoError Cond :=
  if cond.operator = Equal then .ok (.eq cond.field cond.value)
  else if cond.operator = NotEqual then .ok (.ne cond.field cond.value)
  else if cond.operator = LessThan then .ok (.lt cond.field cond.value)
  else if cond.operator = LessThanEqual then .ok (.le cond.field cond.value)
  else if cond.operator = GreaterThan then .ok (.gt cond.field cond.value)
  else if cond.operator = GreaterThanEqual then .ok (.ge cond.field cond.value)
  else if cond.operator = Between then .ok (.between cond.field cond.value cond.value2)
  else if cond.operator = In then
    if cond.values.length = 0 then .error .emptyInOperands
    else .ok (.inSet cond.field cond.values)
  else if cond.operator = Contains then .ok (.containsSub cond.field (goSprint cond.value))
  else if cond.operator = BeginsWith then .ok (.beginsWith cond.field (goSprint cond.value))
  else if cond.operator = AttributeExists then .ok (.attrExists cond.field)
  else if cond.operator = AttributeNotExists then .ok (.attrNotExists cond.field)
  else .error (.unsupportedOperator cond.operator)

/-- The `for _, condition := range where.Conditions` loop of
`buildFilterExpression`: compile each leaf in order, aborting at the
first error. -/
def buildConditionList : List WhereCondition → Except GoError (List Cond)
  | [] => .ok []
  | c :: rest =>
    match buildSingleCondition c with
    | .error e => .error e
    | .ok cc =>
      match buildConditionList rest with
      | .error e => .error e
      | .ok ccs => .ok (cc :: ccs)

/-- The combining loop of `buildFilterExpression`: start from
`conditions[0]` and fold each later predicate in with `And` when the
level's operator is empty or AND, with `Or` otherwise. -/
def combineConds (op : LogicalOperator) (first : Cond) (rest : List Cond) : Cond :=
  rest.foldl (fun acc c => if op = "" ∨ op = AND then .and acc c else .or acc c) first

mutual

/-- Go `buildFilterExpression`: compile the leaf conditions in order, then
the nested groups in order (each group yielding one opaque predicate),
fail with "no conditions provided" when the collected sequence is empty,
and otherwise fold the sequence left-to-right under the level's logical
operator. -/
def buildFilterExpression : Where → Except GoError Cond
  | .mk conds groups op =>
    match buildConditionList conds with
    | .error e => .error e
    | .ok leafConds =>
      match buildGroupList groups with
      | .error e => .error e
      | .ok groupConds =>
        match leafConds ++ groupConds with
        | [] => .error .noConditions
        | first :: rest => .ok (combineConds op first rest)

/-- The `for _, nestedGroup := range where.Groups` loop: compile each
nested group recursively, aborting at the first error. -/
def buildGroupList : List Where → Except GoError (List Cond)
  | [] => .ok []
  | g :: rest =>
    match buildFilterExpression g with
    | .error e => .error e
    | .ok c =>
      match buildGroupList rest with
      | .error e => .error e
      | .ok cs => .ok (c :: cs)

end

instance {ε α : Type} [DecidableEq ε] [DecidableEq α] : DecidableEq (Except ε α) := fun a b =>
  match a, b with
  | .ok x, .ok y => decidable_of_iff (x = y) (by simp)
  | .error x, .error y => decidable_of_iff (x = y) (by simp)
  | .ok _, .error _ => isFalse (by simp)
  | .error _, .ok _ => isFalse (by simp)

/-- Go struct `QueryOptions`.  `Partition`, `Sort` and `Where` are pointers,
modelled as `Option`; `Where` is a keyword in Lean so the field is named
`whereClause`. -/
structure QueryOptions where
  table : String := ""
  index : String := ""
  limit : Int := 0
  cursor : String := ""
  partition : Option QueryKeyValue := none
  sort : Option QueryKeyValue := none
  whereClause : Option Where := none

/-- The key condition expression built by the AWS expression builder:
`expression.Key(k).Equal(expression.Value(v))` fragments joined by `.And`. -/
inductive KeyCond where
  | keyEq (k : String) (v : GoValue)
  | and (a b : KeyCond)
  deriving DecidableEq, Repr

/-- Lines 116-126 of `Query`: the mandatory partition-equality fragment,
extended with a sort-key fragment only when `Sort` is non-nil with a
non-empty `Key` and non-nil `Value`; in that case only the Equal operator
is supported and any other operator fails. -/
def buildKeyCondition (p : QueryKeyValue) (sort : Option QueryKeyValue) :
    Except GoError KeyCond :=
  let keyEx := KeyCond.keyEq p.key p.value
  match sort with
  | some s =>
    if s.key ≠ "" ∧ s.value ≠ GoValue.null then
      if s.operator = Equal then .ok (.and keyEx (.keyEq s.key s.value))
      else .error (.unsupportedSortOperator s.operator)
    else .ok keyEx
  | none => .ok keyEx

/-- The `dynamodb.QueryInput` value assembled at lines 145-157 of `Query`
(the fields the core computes; the name/value placeholder tables produced
by `expr.Names()`/`expr.Values()` are kept inside the `Cond`/`KeyCond`
trees).  No `ExclusiveStartKey` field is ever set by the source. -/
structure QueryInput where
  tableName : String
  indexName : String
  keyCondition : KeyCond
  filterExpr : Option Cond
  limit : Int
  deriving DecidableEq, Repr

/-- The validation and request-assembly prefix of `Query` (lines 102-157):
validate `Table`, then `Index`, then `Partition`; build the key condition;
compile `Where` when present, collapsing any compile error to the
`DynamoDBErrBuildFilterExpression` sentinel; assemble the `QueryInput`
with `Limit: aws.Int32(opts.Limit)`. -/
def buildQueryInput (opts : QueryOptions) : Except GoError QueryInput :=
  if opts.table = "" then .error .tableNotSet
  else if opts.index = "" then .error .indexNotSet
  else
    match opts.partition with
    | none => .error .partitionNotSet
    | some p =>
      if p.key = "" ∨ p.value = GoValue.null then .error .partitionNotSet
      else
        match buildKeyCondition p opts.sort with
        | .error e => .error e
        | .ok keyCond =>
          match opts.whereClause with
          | some w =>
            match buildFilterExpression w with
            | .error _ => .error .buildFilterExpression
            | .ok f =>
              .ok { tableName := opts.table, indexName := opts.index,
                    keyCondition := keyCond, filterExpr := some f,
                    limit := opts.limit }
          | none =>
            .ok { tableName := opts.table, indexName := opts.index,
                  keyCondition := keyCond, filterExpr := none,
                  limit := opts.limit }

/-- An item returned by the backend (opaque to the core). -/
abbrev Item := String

/-- What one `queryPaginator.NextPage(ctx)` call yields: a page of items
plus the has-more-pages flag derived from the continuation token, or an
error.  A cancelled context surfaces through the transport as a
`.fail .ctxCancelled` outcome, since the loop itself never inspects the
context. -/
inductive PageResult where
  | ok (items : List Item) (hasMore : Bool)
  | fail (e : GoError)
  deriving DecidableEq, Repr

/-- The pagination loop of `Query` (lines 168-178), threading the count of
`NextPage` calls performed: while `HasMorePages()`, fetch the next page;
on error return `DynamoDBErrQuery` (discarding `items` accumulated so
far); on success append the page's items and continue until the backend
signals no further page. -/
def runPaginator : List PageResult → List Item → Nat →
    Except GoError (List Item) × Nat
  | [], acc, n => (.ok acc, n)
  | .fail _ :: _, _, n => (.error .queryFailed, n + 1)
  | .ok items more :: rest, acc, n =>
    if more then runPaginator rest (acc ++ items) (n + 1)
    else (.ok (acc ++ items), n + 1)

/-- Go `Query`, run against a backend trace `pages`: validate and assemble
the input via `buildQueryInput`, then drive the pagination loop.  Returns
the result together with the number of page fetches performed. -/
def QueryRun (opts : QueryOptions) (pages : List PageResult) :
    Except GoError (List Item) × Nat :=
  match buildQueryInput opts with
  | .error e => (.error e, 0)
  | .ok _ => runPaginator pages [] 0

/-- The value `Query` returns. -/
def Query (opts : QueryOptions) (pages : List PageResult) :
    Except GoError (List Item) :=
  (QueryRun opts pages).1

/-- How many page fetches `Query` performs. -/
def queryFetches (opts : QueryOptions) (pages : List PageResult) : Nat :=
  (QueryRun opts pages).2

/-- The Go validity test of line 111, negated: `opts.Partition == nil ||
opts.Partition.Key == "" || opts.Partition.Value == nil`. -/
def partitionMissing : Option QueryKeyValue → Bool
  | none => true
  | some p => p.key == "" || p.value == GoValue.null

/-- Whether a `buildQueryInput` outcome is the unsupported-sort-operator
error of line 124. -/
def isUnsupportedSortErr : Except GoError QueryInput → Bool
  | .error (.unsupportedSortOperator _) => true
  | _ => false

/-! ## Helper lemmas -/

theorem runPaginator_append_fail (e : GoError) (post : List PageResult) :
    ∀ (pre : List PageResult) (acc : List Item) (n : Nat),
      (∀ p ∈ pre, ∃ its, p = PageResult.ok its true) →
      runPaginator (pre ++ PageResult.fail e :: post) acc n =
        (.error .queryFailed, n + pre.length + 1) := by
  intro pre
  induction pre with
  | nil => intro acc n _; simp [runPaginator]
  | cons p rest ih =>
    intro acc n h
    obtain ⟨its, hits⟩ := h p (by simp)
    subst hits
    have h2 := ih (acc ++ its) (n + 1) (fun q hq => h q (by simp [hq]))
    simp only [List.cons_append, runPaginator, List.append_eq, reduceIte]
    rw [h2]
    simp only [Prod.mk.injEq, List.length_cons]
    exact ⟨trivial, by omega⟩

theorem buildKeyCondition_invalid_sort (p s : QueryKeyValue)
    (h : s.key = "" ∨ s.value = GoValue.null) :
    buildKeyCondition p (some s) = buildKeyCondition p none := by
  have : ¬(s.key ≠ "" ∧ s.value ≠ GoValue.null) := by
    rcases h with h | h <;> simp [h]
  simp [buildKeyCondition, if_neg this]

theorem buildQueryInput_update_sort_none (opts : QueryOptions) (s : QueryKeyValue)
    (hs : opts.sort = some s) (h : s.key = "" ∨ s.value = GoValue.null) :
    buildQueryInput opts = buildQueryInput { opts with sort := none } := by
  simp only [buildQueryInput, hs, buildKeyCondition_invalid_sort _ s h]

theorem buildQueryInput_sort_none_no_sort_error (opts : QueryOptions)
    (hs : opts.sort = none) :
    isUnsupportedSortErr (buildQueryInput opts) = false := by
  simp only [buildQueryInput, hs, buildKeyCondition]
  repeat' split
  all_goals simp [isUnsupportedSortErr]

/-! ## Claims -/

/-- Claim C1 (code_bug): the spec promises a page-size limit of 100 when
`Limit` is zero, and `defaultLimit = 100` is declared for that purpose,
but `Query` assembles the request with `Limit: aws.Int32(opts.Limit)`
unconditionally: at `Limit = 0` the request carries 0, not 100. -/
theorem c1_limit_zero_not_defaulted :
    buildQueryInput { table := "movies", index := "YearGenreIndex", limit := 0,
                      partition := some ⟨"year", GoValue.num 2020, ""⟩ } =
      .ok { tableName := "movies", indexName := "YearGenreIndex",
            keyCondition := .keyEq "year" (.num 2020), filterExpr := none,
            limit := 0 } ∧ (0 : Int) ≠ 100 := by
  constructor
  · rfl
  · decide

/-- Claim C2 (code_bug): `QueryOptions.Cursor` is documented as the
pagination cursor and the spec says it seeds the first page fetch, but
`Query` never reads it: the entire run (validation, assembled input,
every page fetched, result) is unchanged under any replacement of the
cursor string. -/
theorem c2_cursor_never_read (opts : QueryOptions) (c : String)
    (pages : List PageResult) :
    QueryRun { opts with cursor := c } pages = QueryRun opts pages := rfl

/-- Claim C3 (corrected): compiling a `Between` leaf with an absent
(`nil`) `Value2` does not fail with `MissingRangeBound` — no such check
or error exists in `buildSingleCondition`; it succeeds and produces the
range predicate with the nil bound embedded. -/
theorem c3_between_no_bound_check :
    buildSingleCondition { field := "age", operator := Between,
                           value := GoValue.num 18, value2 := GoValue.null } =
      .ok (.between "age" (.num 18) .null) := by decide

/-- Claim C3 amended: for every field and every pair of bounds, absent or
not, compiling a `Between` leaf succeeds and yields the range predicate
over `value` and `value2` exactly as given. -/
theorem c3_between_always_ok (f : String) (v v2 : GoValue) (vs : List GoValue) :
    buildSingleCondition { field := f, operator := Between, value := v,
                           value2 := v2, values := vs } =
      .ok (.between f v v2) := rfl

/-- Claim C4 (corrected) counterexample: the caller's context is cancelled
after the first of three pages, so the second `NextPage` call fails with
the context's cancellation error.  The claim says `Query` stops without a
further fetch and returns the cancellation error; in fact it attempts the
second fetch (2 fetches, not 1) and returns `QueryFailed`. -/
theorem c4_counterexample :
    Query { table := "t", index := "i",
            partition := some ⟨"k", GoValue.str "v", ""⟩ }
        [.ok ["i1"] true, .fail .ctxCancelled, .ok ["i2"] false] =
      .error .queryFailed ∧
    (Except.error GoError.queryFailed : Except GoError (List Item)) ≠
      .error .ctxCancelled ∧
    queryFetches { table := "t", index := "i",
                   partition := some ⟨"k", GoValue.str "v", ""⟩ }
        [.ok ["i1"] true, .fail .ctxCancelled, .ok ["i2"] false] = 2 :=
  ⟨rfl, by decide, rfl⟩

/-- Claim C4 amended: the pagination loop performs no cancellation check
between page fetches.  When the context is cancelled after the first
pages, the next fetch is still attempted — the cancellation surfaces only
as that fetch's error — and `Query` returns the `QueryFailed` error, not
the context's cancellation error. -/
theorem c4_cancellation_yields_queryFailed (opts : QueryOptions)
    (input : QueryInput) (pre post : List PageResult)
    (hin : buildQueryInput opts = .ok input)
    (hpre : ∀ p ∈ pre, ∃ its, p = PageResult.ok its true) :
    Query opts (pre ++ PageResult.fail .ctxCancelled :: post) =
      .error .queryFailed ∧
    queryFetches opts (pre ++ PageResult.fail .ctxCancelled :: post) =
      pre.length + 1 := by
  have h := runPaginator_append_fail .ctxCancelled post pre [] 0 hpre
  exact ⟨by simp [Query, QueryRun, hin, h],
         by simp [queryFetches, QueryRun, hin, h]⟩

theorem c4_cancellation_yields_queryFailed_witness :
    Query { table := "t", index := "i",
            partition := some ⟨"k", GoValue.str "v", ""⟩ }
        ([PageResult.ok ["a"] true] ++ PageResult.fail .ctxCancelled :: []) =
      .error .queryFailed ∧
    queryFetches { table := "t", index := "i",
                   partition := some ⟨"k", GoValue.str "v", ""⟩ }
        ([PageResult.ok ["a"] true] ++ PageResult.fail .ctxCancelled :: []) = 2 := by
  have h := c4_cancellation_yields_queryFailed
    { table := "t", index := "i", partition := some ⟨"k", GoValue.str "v", ""⟩ }
    { tableName := "t", indexName := "i", keyCondition := .keyEq "k" (.str "v"),
      filterExpr := none, limit := 0 }
    [PageResult.ok ["a"] true] [] rfl
    (fun p hp => ⟨["a"], by simpa using hp⟩)
  simpa using h

/-- Claim C5 (corrected) counterexample: two `Where` values that fail
compilation for different underlying reasons (an empty clause versus an
unsupported leaf operator) make `Query` return the very same bare
`BuildFilterExpressionFailed` sentinel — the underlying compile error is
discarded, so the specific leaf or group failure is not recoverable from
the returned error. -/
theorem c5_counterexample :
    buildFilterExpression (.mk [] [] "") = .error .noConditions ∧
    buildFilterExpression (.mk [{ field := "f", operator := "WAT" }] [] "") =
      .error (.unsupportedOperator "WAT") ∧
    Query { table := "t", index := "i",
            partition := some ⟨"k", GoValue.str "v", ""⟩,
            whereClause := some (.mk [] [] "") } [] =
      .error .buildFilterExpression ∧
    Query { table := "t", index := "i",
            partition := some ⟨"k", GoValue.str "v", ""⟩,
            whereClause := some (.mk [{ field := "f", operator := "WAT" }] [] "") } [] =
      .error .buildFilterExpression :=
  ⟨rfl, rfl, rfl, rfl⟩

/-- Claim C5 amended: for every `QueryOptions` whose `Where` field is set
and fails to compile, `Query` returns the bare
`BuildFilterExpressionFailed` sentinel error, discarding the underlying
compile error, and performs no page fetch. -/
theorem c5_filter_error_collapsed (opts : QueryOptions) (p : QueryKeyValue)
    (kc : KeyCond) (w : Where) (e : GoError) (pages : List PageResult)
    (ht : opts.table ≠ "") (hi : opts.index ≠ "")
    (hp : opts.partition = some p) (hpk : p.key ≠ "")
    (hpv : p.value ≠ GoValue.null)
    (hkc : buildKeyCondition p opts.sort = .ok kc)
    (hw : opts.whereClause = some w)
    (hwe : buildFilterExpression w = .error e) :
    Query opts pages = .error .buildFilterExpression ∧
    queryFetches opts pages = 0 := by
  have hcond : ¬(p.key = "" ∨ p.value = GoValue.null) := fun h => h.elim hpk hpv
  have hbi : buildQueryInput opts = .error .buildFilterExpression := by
    simp only [buildQueryInput, if_neg ht, if_neg hi, hp, if_neg hcond, hkc, hw, hwe]
  exact ⟨by simp [Query, QueryRun, hbi], by simp [queryFetches, QueryRun, hbi]⟩

theorem c5_filter_error_collapsed_witness :
    Query { table := "t", index := "i",
            partition := some ⟨"k", GoValue.str "v", ""⟩,
            whereClause := some (.mk [] [] "AND") } [.ok ["x"] false] =
      .error .buildFilterExpression ∧
    queryFetches { table := "t", index := "i",
                   partition := some ⟨"k", GoValue.str "v", ""⟩,
                   whereClause := some (.mk [] [] "AND") } [.ok ["x"] false] = 0 :=
  c5_filter_error_collapsed
    { table := "t", index := "i", partition := some ⟨"k", GoValue.str "v", ""⟩,
      whereClause := some (.mk [] [] "AND") }
    ⟨"k", GoValue.str "v", ""⟩ (.keyEq "k" (.str "v")) (.mk [] [] "AND")
    .noConditions [.ok ["x"] false]
    (by decide) (by decide) rfl (by decide) (by decide) rfl rfl rfl

/-- Claim C6 (corrected) counterexample: with leaves A = (a = 1),
B = (b = 2), C = (c = 3), the tree `Where{Groups:[{Conditions:[A,B],
Operator:OR}], Conditions:[C], Operator:AND}` compiles to
`C AND (A OR B)` — leaf conditions are collected before nested groups —
and not to the claimed `(A OR B) AND C`. -/
theorem c6_counterexample :
    buildFilterExpression
        (.mk [{ field := "c", operator := Equal, value := GoValue.num 3 }]
             [.mk [{ field := "a", operator := Equal, value := GoValue.num 1 },
                   { field := "b", operator := Equal, value := GoValue.num 2 }]
                  [] OR]
             AND) =
      .ok (.and (.eq "c" (.num 3)) (.or (.eq "a" (.num 1)) (.eq "b" (.num 2)))) ∧
    buildFilterExpression
        (.mk [{ field := "c", operator := Equal, value := GoValue.num 3 }]
             [.mk [{ field := "a", operator := Equal, value := GoValue.num 1 },
                   { field := "b", operator := Equal, value := GoValue.num 2 }]
                  [] OR]
             AND) ≠
      .ok (.and (.or (.eq "a" (.num 1)) (.eq "b" (.num 2))) (.eq "c" (.num 3))) :=
  ⟨rfl, by decide⟩

/-- Claim C6 amended: sibling predicates at one level combine by a
left-associative fold (AND when the level's operator is empty or AND, OR
otherwise) over the sequence of leaf conditions followed by nested-group
predicates, each group compiling independently into one opaque predicate;
in particular `Where{Groups:[{Conditions:[A,B], Operator:OR}],
Conditions:[C], Operator:AND}` compiles to `C AND (A OR B)`. -/
theorem c6_conditions_fold_before_groups (A B C : WhereCondition) (a b c : Cond)
    (hA : buildSingleCondition A = .ok a) (hB : buildSingleCondition B = .ok b)
    (hC : buildSingleCondition C = .ok c) :
    buildFilterExpression (.mk [C] [.mk [A, B] [] OR] AND) =
      .ok (.and c (.or a b)) := by
  simp [buildFilterExpression, buildGroupList, buildConditionList, hA, hB, hC,
    combineConds, OR, AND]

theorem c6_conditions_fold_before_groups_witness :
    buildFilterExpression
        (.mk [{ field := "year", operator := Equal, value := GoValue.num 1999 }]
             [.mk [{ field := "g", operator := Equal, value := GoValue.str "x" },
                   { field := "h", operator := Equal, value := GoValue.str "y" }]
                  [] OR]
             AND) =
      .ok (.and (.eq "year" (.num 1999))
                (.or (.eq "g" (.str "x")) (.eq "h" (.str "y")))) :=
  c6_conditions_fold_before_groups
    { field := "g", operator := Equal, value := GoValue.str "x" }
    { field := "h", operator := Equal, value := GoValue.str "y" }
    { field := "year", operator := Equal, value := GoValue.num 1999 }
    (.eq "g" (.str "x")) (.eq "h" (.str "y")) (.eq "year" (.num 1999))
    rfl rfl rfl

/-- Claim C7 (confirmed): `Query` validates `Table`, then `Index`, then
`Partition`, in that order, failing fast with `TableNotSet`,
`IndexNotSet` or `PartitionNotSet` respectively; in every case no page is
fetched (the outcome holds for every backend trace, with fetch count 0)
and the error carries no items. -/
theorem c7_validation_order (opts : QueryOptions) (pages : List PageResult) :
    (opts.table = "" → QueryRun opts pages = (.error .tableNotSet, 0)) ∧
    (opts.table ≠ "" → opts.index = "" →
      QueryRun opts pages = (.error .indexNotSet, 0)) ∧
    (opts.table ≠ "" → opts.index ≠ "" → partitionMissing opts.partition = true →
      QueryRun opts pages = (.error .partitionNotSet, 0)) := by
  refine ⟨?_, ?_, ?_⟩
  · intro ht
    simp [QueryRun, buildQueryInput, ht]
  · intro ht hi
    simp [QueryRun, buildQueryInput, ht, hi]
  · intro ht hi hm
    cases hp : opts.partition with
    | none => simp [QueryRun, buildQueryInput, ht, hi, hp]
    | some p =>
      rw [hp] at hm
      have hcond : p.key = "" ∨ p.value = GoValue.null := by
        simpa [partitionMissing] using hm
      simp only [QueryRun, buildQueryInput, if_neg ht, if_neg hi, hp]
      rw [if_pos hcond]

theorem c7_validation_order_witness :
    QueryRun { table := "" } [] = (.error .tableNotSet, 0) ∧
    QueryRun { table := "t" } [] = (.error .indexNotSet, 0) ∧
    QueryRun { table := "t", index := "i" } [] = (.error .partitionNotSet, 0) :=
  ⟨(c7_validation_order { table := "" } []).1 rfl,
   (c7_validation_order { table := "t" } []).2.1 (by decide) rfl,
   (c7_validation_order { table := "t", index := "i" } []).2.2
     (by decide) (by decide) rfl⟩

/-- Claim C8 (confirmed): if a page fetch fails after `pre.length`
successful pages, `Query` returns the `QueryFailed` error with no items —
the items accumulated from the earlier pages are discarded — and performs
no further fetch (exactly `pre.length + 1` fetches happen, the trailing
trace is never consumed). -/
theorem c8_fetch_failure_aborts (opts : QueryOptions) (input : QueryInput)
    (pre post : List PageResult) (e : GoError)
    (hin : buildQueryInput opts = .ok input)
    (hpre : ∀ p ∈ pre, ∃ its, p = PageResult.ok its true) :
    Query opts (pre ++ PageResult.fail e :: post) = .error .queryFailed ∧
    queryFetches opts (pre ++ PageResult.fail e :: post) = pre.length + 1 := by
  have h := runPaginator_append_fail e post pre [] 0 hpre
  exact ⟨by simp [Query, QueryRun, hin, h],
         by simp [queryFetches, QueryRun, hin, h]⟩

theorem c8_fetch_failure_aborts_witness :
    Query { table := "t", index := "i",
            partition := some ⟨"k", GoValue.str "v", ""⟩ }
        ([PageResult.ok ["a", "b"] true] ++
          PageResult.fail (.backendFailure "boom") :: [.ok ["c"] false]) =
      .error .queryFailed ∧
    queryFetches { table := "t", index := "i",
                   partition := some ⟨"k", GoValue.str "v", ""⟩ }
        ([PageResult.ok ["a", "b"] true] ++
          PageResult.fail (.backendFailure "boom") :: [.ok ["c"] false]) = 2 := by
  have h := c8_fetch_failure_aborts
    { table := "t", index := "i", partition := some ⟨"k", GoValue.str "v", ""⟩ }
    { tableName := "t", indexName := "i", keyCondition := .keyEq "k" (.str "v"),
      filterExpr := none, limit := 0 }
    [PageResult.ok ["a", "b"] true] [.ok ["c"] false] (.backendFailure "boom") rfl
    (fun p hp => ⟨["a", "b"], by simpa using hp⟩)
  simpa using h

/-- Claim C9 (confirmed): a non-nil `Sort` whose `Key` is empty or whose
`Value` is nil is silently ignored: the whole run is the one obtained
with `Sort` absent (so the key condition comes from the partition alone)
and the unsupported-sort-operator error can never be returned, whatever
`Sort.Operator` holds. -/
theorem c9_invalid_sort_silently_ignored (opts : QueryOptions)
    (s : QueryKeyValue) (pages : List PageResult) (hs : opts.sort = some s)
    (h : s.key = "" ∨ s.value = GoValue.null) :
    QueryRun opts pages = QueryRun { opts with sort := none } pages ∧
    isUnsupportedSortErr (buildQueryInput opts) = false := by
  have h1 := buildQueryInput_update_sort_none opts s hs h
  refine ⟨by simp [QueryRun, h1], ?_⟩
  rw [h1]
  exact buildQueryInput_sort_none_no_sort_error _ rfl

theorem c9_invalid_sort_silently_ignored_witness :
    QueryRun { table := "t", index := "i",
               partition := some ⟨"k", GoValue.str "v", ""⟩,
               sort := some ⟨"", GoValue.num 1, "WEIRD"⟩ } [.ok ["x"] false] =
      QueryRun { table := "t", index := "i",
                 partition := some ⟨"k", GoValue.str "v", ""⟩,
                 sort := none } [.ok ["x"] false] ∧
    isUnsupportedSortErr
      (buildQueryInput { table := "t", index := "i",
                         partition := some ⟨"k", GoValue.str "v", ""⟩,
                         sort := some ⟨"", GoValue.num 1, "WEIRD"⟩ }) = false := by
  have h := c9_invalid_sort_silently_ignored
    { table := "t", index := "i", partition := some ⟨"k", GoValue.str "v", ""⟩,
      sort := some ⟨"", GoValue.num 1, "WEIRD"⟩ }
    ⟨"", GoValue.num 1, "WEIRD"⟩ [.ok ["x"] false] rfl (.inl rfl)
  simpa using h

/-- Claim C10 (confirmed): any logical-operator string other than the
empty string and "AND" — an arbitrary unrecognized value included — makes
the compiler combine sibling predicates with OR; the value is never
rejected as an error. -/
theorem c10_any_other_operator_means_or (op : LogicalOperator)
    (A B : WhereCondition) (a b : Cond)
    (hop1 : op ≠ "") (hop2 : op ≠ AND)
    (hA : buildSingleCondition A = .ok a) (hB : buildSingleCondition B = .ok b) :
    buildFilterExpression (.mk [A, B] [] op) = .ok (.or a b) := by
  have hcond : ¬(op = "" ∨ op = AND) := fun h => h.elim hop1 hop2
  simp [buildFilterExpression, buildConditionList, buildGroupList, hA, hB,
    combineConds, hcond]

theorem c10_any_other_operator_means_or_witness :
    buildFilterExpression
        (.mk [{ field := "x", operator := Equal, value := GoValue.num 1 },
              { field := "y", operator := Equal, value := GoValue.num 2 }]
             [] "XOR") =
      .ok (.or (.eq "x" (.num 1)) (.eq "y" (.num 2))) :=
  c10_any_other_operator_means_or "XOR"
    { field := "x", operator := Equal, value := GoValue.num 1 }
    { field := "y", operator := Equal, value := GoValue.num 2 }
    (.eq "x" (.num 1)) (.eq "y" (.num 2))
    (by decide) (by decide) rfl rfl

end Hephaestus
